import Mathlib

/-!
Verification of the health state machine of the `go-loadbalancer` library
(`server.go`): the `Server` data model, the `SetOnline` / `SetOffline`
transitions, the per-balancer online counter, and the events those
transitions raise.

Modelling conventions:
* Go `int` fields and `time.Duration` are embedded as `Int`; an instant
  (`time.Time`) is an `Int` and `now.Add(d)` is `now + d`, `a.After(b)` is
  `b < a` (strict).
* The Go `Server` holds a pointer to its owning `LoadBalancer` only to lock
  the shared mutex, to adjust `primaryOnlineCount` and to raise events.
  Locking is invisible to a sequential embedding, so the two methods are
  embedded as pure functions that take the owning balancer's
  `primaryOnlineCount` and return the updated server, the updated counter
  and the list of events that the method raises after releasing the lock.
* `userData` is opaque to the library, so `Server` is parametric in it.
-/

/-- Event kinds of the balancer (`ServerUpEvent` / `ServerDownEvent`). -/
inductive EventType where
  | ServerUpEvent : EventType
  | ServerDownEvent : EventType
deriving DecidableEq

/-- ServerOptions, from `server.go` lines 31-36: `Weight`, `MaxFails`,
`FailTimeout`, `IsBackup`. -/
structure ServerOptions where
  Weight : Int
  MaxFails : Int
  FailTimeout : Int
  IsBackup : Bool
deriving DecidableEq

/-- Server, from `server.go` lines 10-21, minus the back pointer `lb`
(threaded explicitly through the operations) and with opaque user data. -/
structure Server (α : Type) where
  opts : ServerOptions
  index : Int
  isDown : Bool
  failCounter : Int
  failTimestamp : Int
  userData : α
deriving DecidableEq

/-- Event delivered to the registered handler.  The handler signature has an
error slot (`func(eventType, *Server, error)`); `raiseEvent` itself lives in
the balancer file that is not among the sources here, so the error slot is
modelled from the spec: the handler receives the server and the error value
supplied at the raise site.  Both raise sites in `server.go` (lines 73 and
123) pass only the event type and the server, embedded as `err = none`. -/
structure Event (α : Type) where
  eventType : EventType
  server : Server α
  err : Option Nat
deriving DecidableEq

/-- UserData accessor, `server.go` lines 41-43. -/
def Server.UserData (srv : Server α) : α :=
  srv.userData

/-- SetOnline, `server.go` lines 46-75.  Guard: only primary servers with
`MaxFails ≠ 0` are touched.  Otherwise the failure counter is reset to 0
unconditionally and, if the server was down, it is flipped up, the owner's
`primaryOnlineCount` is incremented and one `ServerUpEvent` is raised after
the lock is released. -/
def Server.SetOnline (srv : Server α) (primaryOnlineCount : Int) :
    Server α × Int × List (Event α) :=
  if srv.opts.MaxFails = 0 ∨ srv.opts.IsBackup = true then
    (srv, primaryOnlineCount, [])
  else if srv.isDown = true then
    ({ srv with failCounter := 0, isDown := false }, primaryOnlineCount + 1,
      [{ eventType := EventType.ServerUpEvent,
         server := { srv with failCounter := 0, isDown := false },
         err := none }])
  else
    ({ srv with failCounter := 0 }, primaryOnlineCount, [])

/-- SetOffline, `server.go` lines 78-125.  Guard as in `SetOnline`; a server
that is already down or whose counter saturated the threshold is untouched.
Otherwise the counter is incremented (`srv1` below holds the state after
lines 94-106: first failure stamps the window deadline, a later failure past
the deadline resets the counter to 1 without touching the deadline) and, when
the counter has reached `MaxFails` (line 109), the server goes down, the
timestamp is repurposed as the recovery deadline, the owner's counter is
decremented and one `ServerDownEvent` is raised after the lock is released. -/
def Server.SetOffline (srv : Server α) (primaryOnlineCount : Int) (now : Int) :
    Server α × Int × List (Event α) :=
  if srv.opts.MaxFails = 0 ∨ srv.opts.IsBackup = true then
    (srv, primaryOnlineCount, [])
  else if srv.isDown = false ∧ srv.failCounter < srv.opts.MaxFails then
    let srv1 : Server α :=
      if srv.failCounter + 1 = 1 then
        { srv with failCounter := 1, failTimestamp := now + srv.opts.FailTimeout }
      else if srv.failTimestamp < now then
        { srv with failCounter := 1 }
      else
        { srv with failCounter := srv.failCounter + 1 }
    if srv1.failCounter = srv.opts.MaxFails then
      let srv2 : Server α :=
        { srv1 with isDown := true, failTimestamp := now + srv.opts.FailTimeout }
      (srv2, primaryOnlineCount - 1,
        [{ eventType := EventType.ServerDownEvent, server := srv2, err := none }])
    else
      (srv1, primaryOnlineCount, [])
  else
    (srv, primaryOnlineCount, [])

/-- Value of `failCounter` after lines 94-106 of `SetOffline` (increment,
then reset to 1 when the previous window deadline has passed), before the
threshold check of line 109. -/
def failCounterAfterWindow (srv : Server α) (now : Int) : Int :=
  if srv.failCounter + 1 = 1 then 1
  else if srv.failTimestamp < now then 1
  else srv.failCounter + 1

/-- Iterated `SetOffline` at the given list of times, threading the owning
balancer's counter and collecting the raised events in order. -/
def offSeq (srv : Server α) (cnt : Int) (ts : List Int) :
    Server α × Int × List (Event α) :=
  match ts with
  | [] => (srv, cnt, [])
  | t :: rest =>
    let r := srv.SetOffline cnt t
    let r2 := offSeq r.1 r.2.1 rest
    (r2.1, r2.2.1, r.2.2 ++ r2.2.2)

/-- Modelled from the spec: `Add` (the balancer file is not among the sources
here) constructs a Server from validated options that starts `Up` with a zero
failure counter; the failure timestamp only becomes meaningful on the first
failure, so it starts at the zero instant. -/
def newServer (opts : ServerOptions) (index : Int) (userData : α) : Server α :=
  { opts := opts, index := index, isDown := false, failCounter := 0,
    failTimestamp := 0, userData := userData }

/-- Modelled from the spec: `Add` validates options — weight at least 1
unless health tracking is disabled via `MaxFails = 0`, and a non-negative
`FailTimeout`.  A negative `MaxFails` is not a threshold (the data-model
invariant `failCounter ∈ [0, maxFails]` presupposes `0 ≤ MaxFails`), so it is
excluded as well. -/
def ValidOptions (opts : ServerOptions) : Prop :=
  (opts.MaxFails = 0 ∨ 1 ≤ opts.Weight) ∧ 0 ≤ opts.FailTimeout ∧ 0 ≤ opts.MaxFails

instance (opts : ServerOptions) : Decidable (ValidOptions opts) := by
  unfold ValidOptions
  exact inferInstance

/-- Health-state invariant of one server (spec, data model of `Server`):
the failure counter stays within `[0, maxFails]` and a down server has a
saturated counter. -/
def HealthInv (srv : Server α) : Prop :=
  0 ≤ srv.failCounter ∧ srv.failCounter ≤ srv.opts.MaxFails ∧
    (srv.isDown = true → srv.failCounter = srv.opts.MaxFails)

instance (srv : Server α) : Decidable (HealthInv srv) := by
  unfold HealthInv
  exact inferInstance

/-- ServerGroup, `server.go` lines 24-28: server list plus the round-robin
cursor. -/
structure ServerGroup (α : Type) where
  srvList : List (Server α)
  currServerIdx : Int
  currServerWeight : Int
deriving DecidableEq

/-- Modelled from the spec: the LoadBalancer (its file is not among the
sources here) owns one primary group, one backup group and the count of
primary servers currently not down; the mutex it also owns is invisible to a
sequential embedding. -/
structure LoadBalancer (α : Type) where
  primaryGroup : ServerGroup α
  backupGroup : ServerGroup α
  primaryOnlineCount : Int
deriving DecidableEq

/-- Which of the two groups of a balancer a server lives in. -/
inductive GroupTag where
  | primaryTag : GroupTag
  | backupTag : GroupTag

/-- Contribution of one server to the online count: 1 when not down. -/
def upIndicator (srv : Server α) : Int :=
  if srv.isDown = true then 0 else 1

/-- Number of servers in a list that are not down, as an `Int`. -/
def onlineCount : List (Server α) → Int
  | [] => 0
  | s :: rest => upIndicator s + onlineCount rest

/-- Counter invariant of a balancer (spec, data model of `LoadBalancer`):
`primaryOnlineCount` equals the number of primary servers not down. -/
def CountInv (lb : LoadBalancer α) : Prop :=
  lb.primaryOnlineCount = onlineCount lb.primaryGroup.srvList

instance (lb : LoadBalancer α) : Decidable (CountInv lb) := by
  unfold CountInv
  exact inferInstance

/-- Group shape established by `Add` (modelled from the spec: `Add` appends
the server to the primary or backup group per `IsBackup`): every server
stored in the backup group carries `IsBackup = true`. -/
def BackupGroupWF (lb : LoadBalancer α) : Prop :=
  ∀ s ∈ lb.backupGroup.srvList, s.opts.IsBackup = true

instance (lb : LoadBalancer Nat) : Decidable (BackupGroupWF lb) := by
  unfold BackupGroupWF
  exact inferInstance

/-- SetOnline on the server at position `i` of the chosen group of a
balancer: the Go call `srv.SetOnline()` through the pointer stored in the
group's list, with the balancer's counter threaded explicitly. -/
def LoadBalancer.setOnlineAt (lb : LoadBalancer α) (g : GroupTag) (i : Nat) :
    LoadBalancer α × List (Event α) :=
  match g with
  | GroupTag.primaryTag =>
    match lb.primaryGroup.srvList[i]? with
    | none => (lb, [])
    | some srv =>
      let r := srv.SetOnline lb.primaryOnlineCount
      ({ lb with
          primaryGroup := { lb.primaryGroup with
            srvList := lb.primaryGroup.srvList.set i r.1 },
          primaryOnlineCount := r.2.1 }, r.2.2)
  | GroupTag.backupTag =>
    match lb.backupGroup.srvList[i]? with
    | none => (lb, [])
    | some srv =>
      let r := srv.SetOnline lb.primaryOnlineCount
      ({ lb with
          backupGroup := { lb.backupGroup with
            srvList := lb.backupGroup.srvList.set i r.1 },
          primaryOnlineCount := r.2.1 }, r.2.2)

/-- SetOffline on the server at position `i` of the chosen group of a
balancer, at time `now`. -/
def LoadBalancer.setOfflineAt (lb : LoadBalancer α) (g : GroupTag) (i : Nat)
    (now : Int) : LoadBalancer α × List (Event α) :=
  match g with
  | GroupTag.primaryTag =>
    match lb.primaryGroup.srvList[i]? with
    | none => (lb, [])
    | some srv =>
      let r := srv.SetOffline lb.primaryOnlineCount now
      ({ lb with
          primaryGroup := { lb.primaryGroup with
            srvList := lb.primaryGroup.srvList.set i r.1 },
          primaryOnlineCount := r.2.1 }, r.2.2)
  | GroupTag.backupTag =>
    match lb.backupGroup.srvList[i]? with
    | none => (lb, [])
    | some srv =>
      let r := srv.SetOffline lb.primaryOnlineCount now
      ({ lb with
          backupGroup := { lb.backupGroup with
            srvList := lb.backupGroup.srvList.set i r.1 },
          primaryOnlineCount := r.2.1 }, r.2.2)

/-- Definition following the words of claim C8 and of the spec's `raiseEvent`
description, for comparison with `Server.SetOffline`: identical to the source
transition except that the down event carries the error value observed by the
caller of `SetOffline`. -/
def SetOfflineCarryingErr (callerErr : Option Nat) (srv : Server α)
    (primaryOnlineCount : Int) (now : Int) :
    Server α × Int × List (Event α) :=
  if srv.opts.MaxFails = 0 ∨ srv.opts.IsBackup = true then
    (srv, primaryOnlineCount, [])
  else if srv.isDown = false ∧ srv.failCounter < srv.opts.MaxFails then
    let srv1 : Server α :=
      if srv.failCounter + 1 = 1 then
        { srv with failCounter := 1, failTimestamp := now + srv.opts.FailTimeout }
      else if srv.failTimestamp < now then
        { srv with failCounter := 1 }
      else
        { srv with failCounter := srv.failCounter + 1 }
    if srv1.failCounter = srv.opts.MaxFails then
      let srv2 : Server α :=
        { srv1 with isDown := true, failTimestamp := now + srv.opts.FailTimeout }
      (srv2, primaryOnlineCount - 1,
        [{ eventType := EventType.ServerDownEvent, server := srv2, err := callerErr }])
    else
      (srv1, primaryOnlineCount, [])
  else
    (srv, primaryOnlineCount, [])

/-- Concrete server builder (weight 1, user data 7) used by the closed
instances below. -/
def exServer (maxFails failTimeout : Int) (isBackup isDown : Bool)
    (failCounter failTimestamp : Int) : Server Nat :=
  { opts := { Weight := 1, MaxFails := maxFails, FailTimeout := failTimeout,
              IsBackup := isBackup },
    index := 0, isDown := isDown, failCounter := failCounter,
    failTimestamp := failTimestamp, userData := 7 }

/-- Concrete balancer with one healthy primary server and one backup server,
used by the closed instances below. -/
def exBalancer : LoadBalancer Nat :=
  { primaryGroup := { srvList := [exServer 2 10 false false 0 0],
                      currServerIdx := 0, currServerWeight := 1 },
    backupGroup := { srvList := [exServer 2 10 true false 0 0],
                     currServerIdx := 0, currServerWeight := 1 },
    primaryOnlineCount := 1 }

/-- One health-reporting call made by the wrapper: a success report
(`SetOnline`) or a failure report (`SetOffline`) at some time. -/
inductive HealthOp where
  | online : HealthOp
  | offline : Int → HealthOp

/-- Run a sequence of health-reporting calls against one server. -/
def runOps (srv : Server α) (cnt : Int) (ops : List HealthOp) :
    Server α × Int × List (Event α) :=
  match ops with
  | [] => (srv, cnt, [])
  | HealthOp.online :: rest =>
    let r := srv.SetOnline cnt
    let r2 := runOps r.1 r.2.1 rest
    (r2.1, r2.2.1, r.2.2 ++ r2.2.2)
  | HealthOp.offline t :: rest =>
    let r := srv.SetOffline cnt t
    let r2 := runOps r.1 r.2.1 rest
    (r2.1, r2.2.1, r.2.2 ++ r2.2.2)

/-- Health-guard no-op: a server with disabled tracking or a backup server is
untouched by `SetOnline` (`server.go` lines 48-50). -/
theorem setOnline_guard_noop (srv : Server α) (cnt : Int)
    (h : srv.opts.MaxFails = 0 ∨ srv.opts.IsBackup = true) :
    srv.SetOnline cnt = (srv, cnt, []) := by
  unfold Server.SetOnline
  rw [if_pos h]

/-- Health-guard no-op: a server with disabled tracking or a backup server is
untouched by `SetOffline` (`server.go` lines 80-82). -/
theorem setOffline_guard_noop (srv : Server α) (cnt now : Int)
    (h : srv.opts.MaxFails = 0 ∨ srv.opts.IsBackup = true) :
    srv.SetOffline cnt now = (srv, cnt, []) := by
  unfold Server.SetOffline
  rw [if_pos h]

/-- Saturation no-op: whenever the up-and-unsaturated test of line 90 fails,
`SetOffline` changes nothing and raises nothing. -/
theorem setOffline_saturated_noop (srv : Server α) (cnt now : Int)
    (h : ¬(srv.isDown = false ∧ srv.failCounter < srv.opts.MaxFails)) :
    srv.SetOffline cnt now = (srv, cnt, []) := by
  unfold Server.SetOffline
  split_ifs with h1
  · rfl
  · rfl

/-- First failure of a fresh window, below the threshold: the counter becomes
1 and the window deadline is stamped `now + FailTimeout`. -/
theorem setOffline_first (srv : Server α) (cnt now : Int)
    (hb : srv.opts.IsBackup = false) (hm : 2 ≤ srv.opts.MaxFails)
    (hup : srv.isDown = false) (hc : srv.failCounter = 0) :
    srv.SetOffline cnt now =
      ({ srv with failCounter := 1,
                  failTimestamp := now + srv.opts.FailTimeout }, cnt, []) := by
  simp only [Server.SetOffline]
  split_ifs
  all_goals try rfl
  all_goals exfalso
  all_goals simp_all
  all_goals omega

/-- Later failure inside the window, still below the threshold: the counter
is incremented and nothing else changes. -/
theorem setOffline_within_step (srv : Server α) (cnt now : Int)
    (hb : srv.opts.IsBackup = false) (hup : srv.isDown = false)
    (hfc : 1 ≤ srv.failCounter)
    (hlt : srv.failCounter + 1 < srv.opts.MaxFails)
    (hin : ¬ srv.failTimestamp < now) :
    srv.SetOffline cnt now =
      ({ srv with failCounter := srv.failCounter + 1 }, cnt, []) := by
  simp only [Server.SetOffline]
  split_ifs
  all_goals try rfl
  all_goals exfalso
  all_goals simp_all
  all_goals omega

/-- Later failure inside the window that reaches the threshold: the server
goes down, the timestamp becomes the recovery deadline, the owner's counter
drops by one and a single down event is raised. -/
theorem setOffline_trip (srv : Server α) (cnt now : Int)
    (hb : srv.opts.IsBackup = false) (hup : srv.isDown = false)
    (hfc : 1 ≤ srv.failCounter)
    (heq : srv.failCounter + 1 = srv.opts.MaxFails)
    (hin : ¬ srv.failTimestamp < now) :
    srv.SetOffline cnt now =
      ({ srv with failCounter := srv.failCounter + 1,
                  isDown := true,
                  failTimestamp := now + srv.opts.FailTimeout }, cnt - 1,
        [{ eventType := EventType.ServerDownEvent,
           server := { srv with
                       failCounter := srv.failCounter + 1,
                       isDown := true,
                       failTimestamp := now + srv.opts.FailTimeout },
           err := none }]) := by
  simp only [Server.SetOffline]
  split_ifs
  all_goals try rfl
  all_goals exfalso
  all_goals simp_all
  all_goals omega

/-- Later failure past the window deadline, threshold at least 2: the counter
resets to 1 and — decisively — the deadline is left untouched. -/
theorem setOffline_expired_step (srv : Server α) (cnt now : Int)
    (hb : srv.opts.IsBackup = false) (hm : 2 ≤ srv.opts.MaxFails)
    (hup : srv.isDown = false) (hfc : 1 ≤ srv.failCounter)
    (hlt : srv.failCounter < srv.opts.MaxFails)
    (hafter : srv.failTimestamp < now) :
    srv.SetOffline cnt now = ({ srv with failCounter := 1 }, cnt, []) := by
  simp only [Server.SetOffline]
  split_ifs
  all_goals try rfl
  all_goals exfalso
  all_goals simp_all
  all_goals omega

/-- SetOnline never changes the configuration, the index or the user data. -/
theorem setOnline_frame (srv : Server α) (cnt : Int) :
    (srv.SetOnline cnt).1.opts = srv.opts ∧
    (srv.SetOnline cnt).1.index = srv.index ∧
    (srv.SetOnline cnt).1.userData = srv.userData := by
  simp only [Server.SetOnline]
  split_ifs <;> exact ⟨rfl, rfl, rfl⟩

/-- SetOffline never changes the configuration, the index or the user data. -/
theorem setOffline_frame (srv : Server α) (cnt now : Int) :
    (srv.SetOffline cnt now).1.opts = srv.opts ∧
    (srv.SetOffline cnt now).1.index = srv.index ∧
    (srv.SetOffline cnt now).1.userData = srv.userData := by
  simp only [Server.SetOffline]
  split_ifs <;> exact ⟨rfl, rfl, rfl⟩

/-- Counter delta of `SetOnline`: the owner's counter moves exactly by the
change of the server's own online indicator. -/
theorem setOnline_count_delta (srv : Server α) (cnt : Int) :
    (srv.SetOnline cnt).2.1 = cnt + upIndicator (srv.SetOnline cnt).1 - upIndicator srv := by
  simp only [Server.SetOnline, upIndicator]
  split_ifs
  all_goals simp_all

/-- Counter delta of `SetOffline`: the owner's counter moves exactly by the
change of the server's own online indicator. -/
theorem setOffline_count_delta (srv : Server α) (cnt now : Int) :
    (srv.SetOffline cnt now).2.1 =
      cnt + upIndicator (srv.SetOffline cnt now).1 - upIndicator srv := by
  simp only [Server.SetOffline, upIndicator]
  split_ifs
  all_goals simp_all

/-- Online count after replacing the element found at position `i`. -/
theorem onlineCount_set (l : List (Server α)) (i : Nat) (s srv : Server α)
    (h : l[i]? = some srv) :
    onlineCount (l.set i s) = onlineCount l + upIndicator s - upIndicator srv := by
  induction l generalizing i with
  | nil => simp at h
  | cons a rest ih =>
    cases i with
    | zero =>
      rw [List.getElem?_cons_zero] at h
      cases h
      simp only [List.set, onlineCount]
      ring
    | succ n =>
      rw [List.getElem?_cons_succ] at h
      simp only [List.set, onlineCount, ih n h]
      ring

/-- Stale-window loop: from an Up state with an accumulated failure and every
failure time past the recorded deadline, iterated `SetOffline` keeps the
server Up, never touches the deadline and keeps the counter at least 1. -/
theorem offSeq_stale (ts : List Int) :
    ∀ (srv : Server α) (cnt : Int),
      srv.opts.IsBackup = false → 2 ≤ srv.opts.MaxFails →
      srv.isDown = false → 1 ≤ srv.failCounter →
      (∀ t ∈ ts, srv.failTimestamp < t) →
      (offSeq srv cnt ts).1.isDown = false ∧
      (offSeq srv cnt ts).1.failTimestamp = srv.failTimestamp ∧
      1 ≤ (offSeq srv cnt ts).1.failCounter := by
  induction ts with
  | nil =>
    intro srv cnt _ _ hup hc _
    exact ⟨hup, rfl, hc⟩
  | cons t rest ih =>
    intro srv cnt hb hm hup hc hts
    have hlt : srv.failTimestamp < t := hts t (List.mem_cons_self t rest)
    have hrest : ∀ u ∈ rest, srv.failTimestamp < u :=
      fun u hu => hts u (List.mem_cons_of_mem t hu)
    by_cases hsat : srv.failCounter < srv.opts.MaxFails
    · have e := setOffline_expired_step srv cnt t hb hm hup hc hsat hlt
      have h2 := ih { srv with failCounter := 1 } cnt hb hm hup (le_refl 1) hrest
      simp only [offSeq, e]
      exact h2
    · have e := setOffline_saturated_noop srv cnt t (fun h => hsat h.2)
      have h2 := ih srv cnt hb hm hup hc hrest
      simp only [offSeq, e]
      exact h2

/-- Frame of `runOps`: no sequence of health calls changes the configuration,
the index or the user data of a server. -/
theorem runOps_frame (ops : List HealthOp) :
    ∀ (srv : Server α) (cnt : Int),
      (runOps srv cnt ops).1.opts = srv.opts ∧
      (runOps srv cnt ops).1.index = srv.index ∧
      (runOps srv cnt ops).1.userData = srv.userData := by
  induction ops with
  | nil =>
    intro srv cnt
    exact ⟨rfl, rfl, rfl⟩
  | cons op rest ih =>
    intro srv cnt
    cases op with
    | online =>
      have h1 := setOnline_frame srv cnt
      have h2 := ih (srv.SetOnline cnt).1 (srv.SetOnline cnt).2.1
      simp only [runOps]
      exact ⟨h2.1.trans h1.1, h2.2.1.trans h1.2.1, h2.2.2.trans h1.2.2⟩
    | offline t =>
      have h1 := setOffline_frame srv cnt t
      have h2 := ih (srv.SetOffline cnt t).1 (srv.SetOffline cnt t).2.1
      simp only [runOps]
      exact ⟨h2.1.trans h1.1, h2.2.1.trans h1.2.1, h2.2.2.trans h1.2.2⟩

/-- Claim C1 as stated is false on the code: a primary server with
`maxFails = 2`, Up, `failCounter = 1` and recorded deadline 5, hit by
`SetOffline` at time 6 (past the deadline), has its counter reset to 1 but
keeps `failTimestamp = 5` — the deadline is not restarted to
`now + failTimeout = 16`. -/
theorem C1_counterexample :
    ((exServer 2 10 false false 1 5).SetOffline 1 6).1.failCounter = 1 ∧
    ((exServer 2 10 false false 1 5).SetOffline 1 6).1.failTimestamp = 5 ∧
    ¬ (((exServer 2 10 false false 1 5).SetOffline 1 6).1.failCounter = 1 ∧
       ((exServer 2 10 false false 1 5).SetOffline 1 6).1.failTimestamp =
         6 + (exServer 2 10 false false 1 5).opts.FailTimeout) := by
  decide

/-- Claim C1 (amended): for every primary server with `maxFails ≥ 2` that is
Up with `1 ≤ failCounter < maxFails`, a `SetOffline` call whose current time
is past the previously recorded `failTimestamp` resets `failCounter` to 1 but
does NOT restart the window deadline: `failTimestamp` is left unchanged, and
the server stays Up. -/
theorem C1_theorem (srv : Server α) (cnt now : Int)
    (hb : srv.opts.IsBackup = false) (hm : 2 ≤ srv.opts.MaxFails)
    (hup : srv.isDown = false) (hc1 : 1 ≤ srv.failCounter)
    (hcm : srv.failCounter < srv.opts.MaxFails)
    (hpast : srv.failTimestamp < now) :
    (srv.SetOffline cnt now).1.failCounter = 1 ∧
    (srv.SetOffline cnt now).1.failTimestamp = srv.failTimestamp ∧
    (srv.SetOffline cnt now).1.isDown = false := by
  rw [setOffline_expired_step srv cnt now hb hm hup hc1 hcm hpast]
  exact ⟨rfl, rfl, hup⟩

/-- Closed instance of `C1_theorem` at a concrete server. -/
theorem C1_witness :
    ((exServer 2 10 false false 1 5).opts.IsBackup = false ∧
     2 ≤ (exServer 2 10 false false 1 5).opts.MaxFails ∧
     (exServer 2 10 false false 1 5).isDown = false ∧
     1 ≤ (exServer 2 10 false false 1 5).failCounter ∧
     (exServer 2 10 false false 1 5).failCounter <
       (exServer 2 10 false false 1 5).opts.MaxFails ∧
     (exServer 2 10 false false 1 5).failTimestamp < 6) ∧
    (((exServer 2 10 false false 1 5).SetOffline 1 6).1.failCounter = 1 ∧
     ((exServer 2 10 false false 1 5).SetOffline 1 6).1.failTimestamp =
       (exServer 2 10 false false 1 5).failTimestamp ∧
     ((exServer 2 10 false false 1 5).SetOffline 1 6).1.isDown = false) :=
  ⟨by decide,
   C1_theorem (exServer 2 10 false false 1 5) 1 6 (by decide) (by decide)
     (by decide) (by decide) (by decide) (by decide)⟩

/-- Claim C7: for a server with `maxFails = 0` or a backup server, `SetOnline`
and `SetOffline` leave the server and the balancer counter unchanged and
raise no event, and no iterated sequence of `SetOffline` calls ever changes
it (in particular it is never marked Down). -/
theorem C7_theorem (srv : Server α) (cnt now : Int) (ts : List Int)
    (h : srv.opts.MaxFails = 0 ∨ srv.opts.IsBackup = true) :
    srv.SetOnline cnt = (srv, cnt, []) ∧
    srv.SetOffline cnt now = (srv, cnt, []) ∧
    offSeq srv cnt ts = (srv, cnt, []) := by
  refine ⟨setOnline_guard_noop srv cnt h, setOffline_guard_noop srv cnt now h, ?_⟩
  induction ts with
  | nil => rfl
  | cons t rest ih =>
    simp only [offSeq, setOffline_guard_noop srv cnt t h, ih]
    rfl

/-- Closed instance of `C7_theorem` at a concrete backup server. -/
theorem C7_witness :
    ((exServer 2 10 true false 0 0).opts.MaxFails = 0 ∨
     (exServer 2 10 true false 0 0).opts.IsBackup = true) ∧
    ((exServer 2 10 true false 0 0).SetOnline 1 = (exServer 2 10 true false 0 0, 1, []) ∧
     (exServer 2 10 true false 0 0).SetOffline 1 4 = (exServer 2 10 true false 0 0, 1, []) ∧
     offSeq (exServer 2 10 true false 0 0) 1 [4, 5, 6] = (exServer 2 10 true false 0 0, 1, [])) :=
  ⟨by decide, C7_theorem (exServer 2 10 true false 0 0) 1 4 [4, 5, 6] (by decide)⟩

/-- Claim C8 as stated is false on the code: `SetOffline` takes no error value
from its caller, and at a concrete down transition the raised event carries no
error (`err = none`), differing from the claim-faithful variant
`SetOfflineCarryingErr` that would attach the caller's observed error
(here `some 7`). -/
theorem C8_counterexample :
    ((exServer 1 10 false false 0 0).SetOffline 1 0).2.2.map Event.err = [none] ∧
    (SetOfflineCarryingErr (some 7) (exServer 1 10 false false 0 0) 1 0).2.2.map
      Event.err = [some 7] ∧
    ((exServer 1 10 false false 0 0).SetOffline 1 0).2.2 ≠
      (SetOfflineCarryingErr (some 7) (exServer 1 10 false false 0 0) 1 0).2.2 := by
  decide

/-- Claim C8 (amended): when `SetOffline` triggers a down transition, the down
event is raised with no caller-supplied error: `SetOffline` accepts no error
argument, so every event it raises carries `err = none`; the triggering error
is tracked by the caller outside this library. -/
theorem C8_theorem (srv : Server α) (cnt now : Int) :
    (((srv.SetOffline cnt now).2.2.all fun e => e.err == none)) = true := by
  simp only [Server.SetOffline]
  split_ifs
  all_goals simp

/-- Claim C9: no sequence of `SetOnline` / `SetOffline` calls changes a
server's configuration (`opts`), its `index` or its `userData`; `UserData`
always returns the value attached at creation. -/
theorem C9_theorem (srv : Server α) (cnt cnt2 : Int) (ops : List HealthOp)
    (opts : ServerOptions) (index : Int) (u : α) :
    (runOps srv cnt ops).1.opts = srv.opts ∧
    (runOps srv cnt ops).1.index = srv.index ∧
    (runOps srv cnt ops).1.userData = srv.userData ∧
    (runOps srv cnt ops).1.UserData = srv.UserData ∧
    (runOps (newServer opts index u) cnt2 ops).1.UserData = u := by
  have h := runOps_frame ops srv cnt
  have h2 := runOps_frame ops (newServer opts index u) cnt2
  exact ⟨h.1, h.2.1, h.2.2, h.2.2, h2.2.2⟩

/-- Claim C10: for every primary server with `maxFails ≥ 2` that is Up with
`failCounter ≥ 1`, once the current time is past the recorded
`failTimestamp`, no sequence of further `SetOffline` calls alone (each past
that deadline) ever marks the server Down: the expiry branch resets the
counter to 1 without ever refreshing `failTimestamp`. -/
theorem C10_theorem (srv : Server α) (cnt : Int) (ts : List Int)
    (hb : srv.opts.IsBackup = false) (hm : 2 ≤ srv.opts.MaxFails)
    (hup : srv.isDown = false) (hc : 1 ≤ srv.failCounter)
    (hts : ∀ t ∈ ts, srv.failTimestamp < t) :
    (offSeq srv cnt ts).1.isDown = false ∧
    (offSeq srv cnt ts).1.failTimestamp = srv.failTimestamp ∧
    1 ≤ (offSeq srv cnt ts).1.failCounter :=
  offSeq_stale ts srv cnt hb hm hup hc hts

/-- Closed instance of `C10_theorem` at a concrete server and three stale
failure times. -/
theorem C10_witness :
    ((exServer 2 10 false false 1 5).opts.IsBackup = false ∧
     2 ≤ (exServer 2 10 false false 1 5).opts.MaxFails ∧
     (exServer 2 10 false false 1 5).isDown = false ∧
     1 ≤ (exServer 2 10 false false 1 5).failCounter ∧
     (∀ t ∈ [6, 7, 20], (exServer 2 10 false false 1 5).failTimestamp < t)) ∧
    ((offSeq (exServer 2 10 false false 1 5) 1 [6, 7, 20]).1.isDown = false ∧
     (offSeq (exServer 2 10 false false 1 5) 1 [6, 7, 20]).1.failTimestamp =
       (exServer 2 10 false false 1 5).failTimestamp ∧
     1 ≤ (offSeq (exServer 2 10 false false 1 5) 1 [6, 7, 20]).1.failCounter) :=
  ⟨by decide,
   C10_theorem (exServer 2 10 false false 1 5) 1 [6, 7, 20] (by decide) (by decide)
     (by decide) (by decide) (by decide)⟩

/-- Claim C2 as stated is false on the code: with `maxFails = 3` and
`failTimeout = 10`, the three failures at times 0, 9, 18 are each within less
than 10 of the previous call, yet the third call lands past the deadline
`0 + 10` stamped by the FIRST failure (never refreshed at the second), so the
counter resets to 1 and the server is not marked Down. -/
theorem C2_counterexample :
    ((9 : Int) - 0 < 10 ∧ (18 : Int) - 9 < 10) ∧
    ¬ ((offSeq (exServer 3 10 false false 0 0) 1 [0, 9, 18]).1.isDown = true) ∧
    (offSeq (exServer 3 10 false false 0 0) 1 [0, 9, 18]).1.failCounter = 1 := by
  decide

/-- Claim C2 (amended): for a primary server with `maxFails = 3`,
`failTimeout = T ≥ 0`, starting Up with `failCounter = 0`: three `SetOffline`
calls ALL within less than `T` of the FIRST call (so none lands past the
deadline stamped by the first failure) mark the server Down; three calls
spread more than `T` apart each reset the counter to 1 and never mark the
server Down. -/
theorem C2_theorem (srv : Server α) (cnt t1 t2 t3 s1 s2 s3 : Int)
    (hb : srv.opts.IsBackup = false) (hm : srv.opts.MaxFails = 3)
    (hT : 0 ≤ srv.opts.FailTimeout)
    (hup : srv.isDown = false) (hc : srv.failCounter = 0)
    (hw2 : t2 - t1 < srv.opts.FailTimeout) (hw3 : t3 - t1 < srv.opts.FailTimeout)
    (hs2 : s1 + srv.opts.FailTimeout < s2) (hs3 : s2 + srv.opts.FailTimeout < s3) :
    (offSeq srv cnt [t1, t2, t3]).1.isDown = true ∧
    ((offSeq srv cnt [s1]).1.isDown = false ∧
     (offSeq srv cnt [s1]).1.failCounter = 1) ∧
    ((offSeq srv cnt [s1, s2]).1.isDown = false ∧
     (offSeq srv cnt [s1, s2]).1.failCounter = 1) ∧
    ((offSeq srv cnt [s1, s2, s3]).1.isDown = false ∧
     (offSeq srv cnt [s1, s2, s3]).1.failCounter = 1) := by
  have e1 :
      srv.SetOffline cnt t1 =
        ({ srv with failCounter := 1,
                    failTimestamp := t1 + srv.opts.FailTimeout }, cnt, []) :=
    setOffline_first srv cnt t1 hb (by omega) hup hc
  have e2 :
      ({ srv with failCounter := 1,
                  failTimestamp := t1 + srv.opts.FailTimeout } : Server α).SetOffline
          cnt t2 =
        ({ srv with failCounter := 2,
                    failTimestamp := t1 + srv.opts.FailTimeout }, cnt, []) := by
    have h := setOffline_within_step
      ({ srv with failCounter := 1,
                  failTimestamp := t1 + srv.opts.FailTimeout } : Server α)
      cnt t2 hb hup (le_refl 1)
      (show (1 : Int) + 1 < srv.opts.MaxFails by omega)
      (show ¬ t1 + srv.opts.FailTimeout < t2 by omega)
    simpa using h
  have e3 :
      ({ srv with failCounter := 2,
                  failTimestamp := t1 + srv.opts.FailTimeout } : Server α).SetOffline
          cnt t3 =
        ({ srv with failCounter := 3,
                    isDown := true,
                    failTimestamp := t3 + srv.opts.FailTimeout }, cnt - 1,
         [{ eventType := EventType.ServerDownEvent,
            server := { srv with failCounter := 3,
                                 isDown := true,
                                 failTimestamp := t3 + srv.opts.FailTimeout },
            err := none }]) := by
    have h := setOffline_trip
      ({ srv with failCounter := 2,
                  failTimestamp := t1 + srv.opts.FailTimeout } : Server α)
      cnt t3 hb hup (by norm_num)
      (show (2 : Int) + 1 = srv.opts.MaxFails by omega)
      (show ¬ t1 + srv.opts.FailTimeout < t3 by omega)
    simpa using h
  have f1 :
      srv.SetOffline cnt s1 =
        ({ srv with failCounter := 1,
                    failTimestamp := s1 + srv.opts.FailTimeout }, cnt, []) :=
    setOffline_first srv cnt s1 hb (by omega) hup hc
  have f2 :
      ({ srv with failCounter := 1,
                  failTimestamp := s1 + srv.opts.FailTimeout } : Server α).SetOffline
          cnt s2 =
        ({ srv with failCounter := 1,
                    failTimestamp := s1 + srv.opts.FailTimeout }, cnt, []) := by
    have h := setOffline_expired_step
      ({ srv with failCounter := 1,
                  failTimestamp := s1 + srv.opts.FailTimeout } : Server α)
      cnt s2 hb (show (2 : Int) ≤ srv.opts.MaxFails by omega) hup (le_refl 1)
      (show (1 : Int) < srv.opts.MaxFails by omega)
      (show s1 + srv.opts.FailTimeout < s2 by omega)
    simpa using h
  have f3 :
      ({ srv with failCounter := 1,
                  failTimestamp := s1 + srv.opts.FailTimeout } : Server α).SetOffline
          cnt s3 =
        ({ srv with failCounter := 1,
                    failTimestamp := s1 + srv.opts.FailTimeout }, cnt, []) := by
    have h := setOffline_expired_step
      ({ srv with failCounter := 1,
                  failTimestamp := s1 + srv.opts.FailTimeout } : Server α)
      cnt s3 hb (show (2 : Int) ≤ srv.opts.MaxFails by omega) hup (le_refl 1)
      (show (1 : Int) < srv.opts.MaxFails by omega)
      (show s1 + srv.opts.FailTimeout < s3 by omega)
    simpa using h
  refine ⟨?_, ⟨?_, ?_⟩, ⟨?_, ?_⟩, ⟨?_, ?_⟩⟩
  · simp only [offSeq, e1, e2, e3]
  · simp only [offSeq, f1]
    exact hup
  · simp only [offSeq, f1]
  · simp only [offSeq, f1, f2]
    exact hup
  · simp only [offSeq, f1, f2]
  · simp only [offSeq, f1, f2, f3]
    exact hup
  · simp only [offSeq, f1, f2, f3]

/-- Closed instance of `C2_theorem`: failure times 0, 4, 8 (all within less
than 10 of the first) take the server down; times 0, 11, 22 (spread more than
10 apart) keep it up with counter 1. -/
theorem C2_witness :
    ((exServer 3 10 false false 0 0).opts.IsBackup = false ∧
     (exServer 3 10 false false 0 0).opts.MaxFails = 3 ∧
     0 ≤ (exServer 3 10 false false 0 0).opts.FailTimeout ∧
     (exServer 3 10 false false 0 0).isDown = false ∧
     (exServer 3 10 false false 0 0).failCounter = 0 ∧
     (4 : Int) - 0 < (exServer 3 10 false false 0 0).opts.FailTimeout ∧
     (8 : Int) - 0 < (exServer 3 10 false false 0 0).opts.FailTimeout ∧
     (0 : Int) + (exServer 3 10 false false 0 0).opts.FailTimeout < 11 ∧
     (11 : Int) + (exServer 3 10 false false 0 0).opts.FailTimeout < 22) ∧
    ((offSeq (exServer 3 10 false false 0 0) 1 [0, 4, 8]).1.isDown = true ∧
     ((offSeq (exServer 3 10 false false 0 0) 1 [0]).1.isDown = false ∧
      (offSeq (exServer 3 10 false false 0 0) 1 [0]).1.failCounter = 1) ∧
     ((offSeq (exServer 3 10 false false 0 0) 1 [0, 11]).1.isDown = false ∧
      (offSeq (exServer 3 10 false false 0 0) 1 [0, 11]).1.failCounter = 1) ∧
     ((offSeq (exServer 3 10 false false 0 0) 1 [0, 11, 22]).1.isDown = false ∧
      (offSeq (exServer 3 10 false false 0 0) 1 [0, 11, 22]).1.failCounter = 1)) :=
  ⟨by decide,
   C2_theorem (exServer 3 10 false false 0 0) 1 0 4 8 0 11 22 (by decide) (by decide)
     (by decide) (by decide) (by decide) (by decide) (by decide) (by decide)
     (by decide)⟩

/-- Claim C3: for primary servers with `maxFails ≥ 1`, `SetOffline` is a
complete no-op (no state change, no counter change, no event) on a server
already Down or with a saturated counter; and when the counter value after
the window logic reaches `maxFails`, the server is marked Down, the
timestamp becomes `now + failTimeout`, the owner's counter is decremented
and exactly one `ServerDownEvent` is raised (after the lock is released). -/
theorem C3_theorem (sa sb : Server α) (cnta cntb nowa nowb : Int)
    (hba : sa.opts.IsBackup = false) (hma : 1 ≤ sa.opts.MaxFails)
    (hsat : sa.isDown = true ∨ sa.failCounter = sa.opts.MaxFails)
    (hbb : sb.opts.IsBackup = false) (hmb : 1 ≤ sb.opts.MaxFails)
    (hub : sb.isDown = false) (hcb : sb.failCounter < sb.opts.MaxFails)
    (htrig : failCounterAfterWindow sb nowb = sb.opts.MaxFails) :
    sa.SetOffline cnta nowa = (sa, cnta, []) ∧
    (sb.SetOffline cntb nowb).1.isDown = true ∧
    (sb.SetOffline cntb nowb).1.failCounter = sb.opts.MaxFails ∧
    (sb.SetOffline cntb nowb).1.failTimestamp = nowb + sb.opts.FailTimeout ∧
    (sb.SetOffline cntb nowb).2.1 = cntb - 1 ∧
    (sb.SetOffline cntb nowb).2.2.map Event.eventType = [EventType.ServerDownEvent] := by
  refine ⟨?_, ?_⟩
  · refine setOffline_saturated_noop sa cnta nowa ?_
    rcases hsat with h | h
    · intro hcon
      rw [h] at hcon
      exact absurd hcon.1 (by decide)
    · intro hcon
      omega
  · simp only [failCounterAfterWindow] at htrig
    simp only [Server.SetOffline]
    split_ifs
    all_goals simp_all

/-- Closed instance of `C3_theorem`: a saturated Down server is untouched and
a server one failure away from its threshold goes Down with one event. -/
theorem C3_witness :
    ((exServer 2 10 false true 2 30).opts.IsBackup = false ∧
     1 ≤ (exServer 2 10 false true 2 30).opts.MaxFails ∧
     ((exServer 2 10 false true 2 30).isDown = true ∨
      (exServer 2 10 false true 2 30).failCounter =
        (exServer 2 10 false true 2 30).opts.MaxFails) ∧
     (exServer 2 10 false false 1 20).opts.IsBackup = false ∧
     1 ≤ (exServer 2 10 false false 1 20).opts.MaxFails ∧
     (exServer 2 10 false false 1 20).isDown = false ∧
     (exServer 2 10 false false 1 20).failCounter <
       (exServer 2 10 false false 1 20).opts.MaxFails ∧
     failCounterAfterWindow (exServer 2 10 false false 1 20) 15 =
       (exServer 2 10 false false 1 20).opts.MaxFails) ∧
    ((exServer 2 10 false true 2 30).SetOffline 0 40 =
       (exServer 2 10 false true 2 30, 0, []) ∧
     ((exServer 2 10 false false 1 20).SetOffline 1 15).1.isDown = true ∧
     ((exServer 2 10 false false 1 20).SetOffline 1 15).1.failCounter =
       (exServer 2 10 false false 1 20).opts.MaxFails ∧
     ((exServer 2 10 false false 1 20).SetOffline 1 15).1.failTimestamp =
       15 + (exServer 2 10 false false 1 20).opts.FailTimeout ∧
     ((exServer 2 10 false false 1 20).SetOffline 1 15).2.1 = 1 - 1 ∧
     ((exServer 2 10 false false 1 20).SetOffline 1 15).2.2.map Event.eventType =
       [EventType.ServerDownEvent]) :=
  ⟨by decide,
   C3_theorem (exServer 2 10 false true 2 30) (exServer 2 10 false false 1 20)
     0 1 40 15 (by decide) (by decide) (by decide) (by decide) (by decide)
     (by decide) (by decide) (by decide)⟩

/-- Claim C4: for primary servers with `maxFails ≥ 1`, `SetOnline` resets
`failCounter` to 0 unconditionally; a Down server flips Up, the owner's
`primaryOnlineCount` is incremented and one `ServerUpEvent` is raised after
the lock is released; an already-Up server undergoes no other change and no
event is raised. -/
theorem C4_theorem (sa sb : Server α) (cnta cntb : Int)
    (hba : sa.opts.IsBackup = false) (hma : 1 ≤ sa.opts.MaxFails)
    (hda : sa.isDown = true)
    (hbb : sb.opts.IsBackup = false) (hmb : 1 ≤ sb.opts.MaxFails)
    (hub : sb.isDown = false) :
    (sa.SetOnline cnta).1 = { sa with failCounter := 0, isDown := false } ∧
    (sa.SetOnline cnta).2.1 = cnta + 1 ∧
    (sa.SetOnline cnta).2.2 =
      [{ eventType := EventType.ServerUpEvent,
         server := { sa with failCounter := 0, isDown := false },
         err := none }] ∧
    (sb.SetOnline cntb).1 = { sb with failCounter := 0 } ∧
    (sb.SetOnline cntb).2.1 = cntb ∧
    (sb.SetOnline cntb).2.2 = [] := by
  simp only [Server.SetOnline]
  split_ifs
  all_goals simp_all

/-- Closed instance of `C4_theorem`: a Down server comes back Up with one up
event; an Up server only has its counter cleared. -/
theorem C4_witness :
    ((exServer 2 10 false true 2 30).opts.IsBackup = false ∧
     1 ≤ (exServer 2 10 false true 2 30).opts.MaxFails ∧
     (exServer 2 10 false true 2 30).isDown = true ∧
     (exServer 2 10 false false 1 20).opts.IsBackup = false ∧
     1 ≤ (exServer 2 10 false false 1 20).opts.MaxFails ∧
     (exServer 2 10 false false 1 20).isDown = false) ∧
    (((exServer 2 10 false true 2 30).SetOnline 0).1 =
       { exServer 2 10 false true 2 30 with failCounter := 0, isDown := false } ∧
     ((exServer 2 10 false true 2 30).SetOnline 0).2.1 = 0 + 1 ∧
     ((exServer 2 10 false true 2 30).SetOnline 0).2.2 =
       [{ eventType := EventType.ServerUpEvent,
          server := { exServer 2 10 false true 2 30 with
                      failCounter := 0, isDown := false },
          err := none }] ∧
     ((exServer 2 10 false false 1 20).SetOnline 1).1 =
       { exServer 2 10 false false 1 20 with failCounter := 0 } ∧
     ((exServer 2 10 false false 1 20).SetOnline 1).2.1 = 1 ∧
     ((exServer 2 10 false false 1 20).SetOnline 1).2.2 = []) :=
  ⟨by decide,
   C4_theorem (exServer 2 10 false true 2 30) (exServer 2 10 false false 1 20)
     0 1 (by decide) (by decide) (by decide) (by decide) (by decide) (by decide)⟩

/-- Claim C5: the health invariant — `failCounter ∈ [0, maxFails]` and Down
implies a saturated counter — holds of every freshly created server (with
validated options) and is preserved by every `SetOnline` and every
`SetOffline` call. -/
theorem C5_theorem (opts : ServerOptions) (index : Int) (u : α) (srv : Server α)
    (cnt now : Int) (hv : ValidOptions opts) (hinv : HealthInv srv) :
    HealthInv (newServer opts index u) ∧
    HealthInv (srv.SetOnline cnt).1 ∧
    HealthInv (srv.SetOffline cnt now).1 := by
  obtain ⟨hv1, hv2, hv3⟩ := hv
  obtain ⟨h0, h1, h2⟩ := hinv
  refine ⟨⟨le_refl 0, hv3, ?_⟩, ?_, ?_⟩
  · intro h
    simp [newServer] at h
  · simp only [HealthInv, Server.SetOnline]
    split_ifs
    all_goals simp_all
    all_goals omega
  · simp only [HealthInv, Server.SetOffline]
    split_ifs
    all_goals simp_all
    all_goals omega

/-- Closed instance of `C5_theorem` at concrete options and a concrete
server. -/
theorem C5_witness :
    (ValidOptions (exServer 2 10 false false 1 5).opts ∧
     HealthInv (exServer 2 10 false false 1 5)) ∧
    (HealthInv (newServer (exServer 2 10 false false 1 5).opts 0 (7 : Nat)) ∧
     HealthInv ((exServer 2 10 false false 1 5).SetOnline 1).1 ∧
     HealthInv ((exServer 2 10 false false 1 5).SetOffline 1 9).1) :=
  ⟨by decide,
   C5_theorem (exServer 2 10 false false 1 5).opts 0 (7 : Nat)
     (exServer 2 10 false false 1 5) 1 9 (by decide) (by decide)⟩

/-- Claim C6: the counter invariant — `primaryOnlineCount` equals the number
of primary-group servers not Down — is preserved by every `SetOnline` and
`SetOffline` call on either group (given the groups as built by `Add`, where
backup-group servers carry `IsBackup = true`); moreover each call moves the
counter exactly by the change of the touched server's own online indicator
(+1 for a Down-to-Up flip, -1 for an Up-to-Down flip, 0 otherwise). -/
theorem C6_theorem (lb : LoadBalancer α) (g : GroupTag) (i : Nat) (now : Int)
    (srv : Server α) (cnt t : Int)
    (hwf : BackupGroupWF lb) (hinv : CountInv lb) :
    CountInv (lb.setOnlineAt g i).1 ∧
    CountInv (lb.setOfflineAt g i now).1 ∧
    (srv.SetOnline cnt).2.1 = cnt + upIndicator (srv.SetOnline cnt).1 - upIndicator srv ∧
    (srv.SetOffline cnt t).2.1 =
      cnt + upIndicator (srv.SetOffline cnt t).1 - upIndicator srv := by
  refine ⟨?_, ?_, setOnline_count_delta srv cnt, setOffline_count_delta srv cnt t⟩
  · cases g with
    | primaryTag =>
      cases h : lb.primaryGroup.srvList[i]? with
      | none => simpa [LoadBalancer.setOnlineAt, h] using hinv
      | some s =>
        unfold CountInv at hinv ⊢
        simp only [LoadBalancer.setOnlineAt, h]
        rw [onlineCount_set lb.primaryGroup.srvList i
              (s.SetOnline lb.primaryOnlineCount).1 s h,
            setOnline_count_delta s lb.primaryOnlineCount]
        omega
    | backupTag =>
      cases h : lb.backupGroup.srvList[i]? with
      | none => simpa [LoadBalancer.setOnlineAt, h] using hinv
      | some s =>
        have hbk : s.opts.IsBackup = true := hwf s (List.getElem?_mem h)
        have e := setOnline_guard_noop s lb.primaryOnlineCount (Or.inr hbk)
        unfold CountInv at hinv ⊢
        simp only [LoadBalancer.setOnlineAt, h, e]
        exact hinv
  · cases g with
    | primaryTag =>
      cases h : lb.primaryGroup.srvList[i]? with
      | none => simpa [LoadBalancer.setOfflineAt, h] using hinv
      | some s =>
        unfold CountInv at hinv ⊢
        simp only [LoadBalancer.setOfflineAt, h]
        rw [onlineCount_set lb.primaryGroup.srvList i
              (s.SetOffline lb.primaryOnlineCount now).1 s h,
            setOffline_count_delta s lb.primaryOnlineCount now]
        omega
    | backupTag =>
      cases h : lb.backupGroup.srvList[i]? with
      | none => simpa [LoadBalancer.setOfflineAt, h] using hinv
      | some s =>
        have hbk : s.opts.IsBackup = true := hwf s (List.getElem?_mem h)
        have e := setOffline_guard_noop s lb.primaryOnlineCount now (Or.inr hbk)
        unfold CountInv at hinv ⊢
        simp only [LoadBalancer.setOfflineAt, h, e]
        exact hinv

/-- Closed instance of `C6_theorem` on a balancer with one Up primary and one
backup server, taking the primary offline at time 5. -/
theorem C6_witness :
    (BackupGroupWF exBalancer ∧ CountInv exBalancer) ∧
    (CountInv (exBalancer.setOnlineAt GroupTag.primaryTag 0).1 ∧
     CountInv (exBalancer.setOfflineAt GroupTag.primaryTag 0 5).1 ∧
     ((exServer 2 10 false true 2 30).SetOnline 0).2.1 =
       0 + upIndicator ((exServer 2 10 false true 2 30).SetOnline 0).1 -
         upIndicator (exServer 2 10 false true 2 30) ∧
     ((exServer 2 10 false true 2 30).SetOffline 0 5).2.1 =
       0 + upIndicator ((exServer 2 10 false true 2 30).SetOffline 0 5).1 -
         upIndicator (exServer 2 10 false true 2 30)) :=
  ⟨by decide,
   C6_theorem exBalancer GroupTag.primaryTag 0 5 (exServer 2 10 false true 2 30)
     0 5 (by decide) (by decide)⟩
